import Mathlib

/-!
Shallow embedding of the motion-library core in
src/libsensors/mlsdk/mllite/ml.c (device orchestration layer of the
InvenSense MPL): lifecycle state gating, calibration encoders, the
sensor-enable controller, and the interrupt-driven data pump.

Floating-point values of the C source (ranges, scales) are modelled as
rationals; C float-to-long casts become truncation toward zero on the
rational value.  C 32-bit signed storage is modelled with an explicit
twos-complement wrap.  External device services (device-memory writes,
FIFO reads, interrupt triggers, slave configuration) are supplied by an
explicit environment of oracles, and every externally visible action is
recorded in an effect trace.
-/

/-- Result codes (inv_error_t) used by the embedded operations.  The
codes that matter to the layer are named; any other device error code is
carried by the deviceError constructor. -/
inductive InvError where
  | success
  | improperState
  | invalidParameter
  | featureNotImplemented
  | serialDeviceNotRecognized
  | deviceError (code : Nat)
  deriving DecidableEq, Repr

/-- Lifecycle states of the device state machine (mlstates), in their
linear order SERIAL_CLOSED, SERIAL_OPENED, DMP_OPENED, DMP_STARTED. -/
inductive InvState where
  | serialClosed
  | serialOpened
  | dmpOpened
  | dmpStarted
  deriving DecidableEq, Repr

/-- Ordinal of a lifecycle state (the numeric values of the C enum). -/
def InvState.toNat : InvState → Nat
  | .serialClosed => 0
  | .serialOpened => 1
  | .dmpOpened => 2
  | .dmpStarted => 3

/-- Interrupt trigger sources checked by the data pump. -/
inductive IntSrc where
  | aux1
  | mpu
  deriving DecidableEq, Repr

/-- Symbolic device-memory keys touched by the embedded operations. -/
inductive DmpKey where
  | fcfg1
  | fcfg3
  | d_0_104
  | d_0_24
  | d_1_152
  | fcfg2
  | fcfg7
  | d_0_108
  | cpassMtx (cell : Fin 9)
  | cfg18
  | d_1_106
  | d_1_96
  | d_0_96
  deriving DecidableEq, Repr

/-- Externally visible actions performed by the embedded operations, in
program order. -/
inductive Effect where
  | memWrite (key : DmpKey) (bytes : List Nat)
  | fifoRead (maxPackets : Nat)
  | clearInt (src : IntSrc)
  | callback (cb : Nat)
  | configAccelCall (which : Nat)
  | initFifoHw
  | dlStartCall (mask : Nat)
  | dlStopCall (mask : Nat)
  | setFifoRateCall (rate : Nat)
  | modeChangeCall (oldMask newMask : Nat)
  | setMotionStateCall (s : Nat)
  deriving DecidableEq, Repr

/-! DMP opcode bytes (DINA constants).  Modelled from the spec: the
opcode tables live in dmpKey.h / dmpDefault headers that are not among
the provided sources; the byte value is encoded in the constant name in
the original headers.  No claim depends on these values. -/

def DINAC9 : Nat := 0xc9
def DINA2C : Nat := 0x2c
def DINACB : Nat := 0xcb
def DINA36 : Nat := 0x36
def DINA56 : Nat := 0x56
def DINA76 : Nat := 0x76
def DINA4C : Nat := 0x4c
def DINACD : Nat := 0xcd
def DINA6C : Nat := 0x6c
def DINA26 : Nat := 0x26
def DINA46 : Nat := 0x46
def DINA66 : Nat := 0x66
def DINAD8 : Nat := 0xd8
def DINA0C : Nat := 0x0c

/-! Sensor bitmask constants.  Modelled from the spec: the bit layout is
declared in the mpu.h header that is not among the provided sources; the
spec only requires three disjoint 3-axis groups plus a DMP-processor
bit, which these standard values provide. -/

def INV_X_GYRO : Nat := 0x0001
def INV_Y_GYRO : Nat := 0x0002
def INV_Z_GYRO : Nat := 0x0004
def INV_DMP_PROCESSOR : Nat := 0x0008
def INV_X_ACCEL : Nat := 0x0010
def INV_Y_ACCEL : Nat := 0x0020
def INV_Z_ACCEL : Nat := 0x0040
def INV_X_COMPASS : Nat := 0x0080
def INV_Y_COMPASS : Nat := 0x0100
def INV_Z_COMPASS : Nat := 0x0200
def INV_X_PRESSURE : Nat := 0x0400
def INV_Y_PRESSURE : Nat := 0x0800
def INV_Z_PRESSURE : Nat := 0x1000
def INV_THREE_AXIS_ACCEL : Nat := 0x0070
def INV_THREE_AXIS_COMPASS : Nat := 0x0380
def INV_THREE_AXIS_PRESSURE : Nat := 0x1c00

/-- Full-scale range enum values (MPU_FS_250DPS .. MPU_FS_2000DPS).
Modelled from the spec: declared in the mpu.h header not among the
provided sources; only their distinctness matters. -/
def MPU_FS_250DPS : Nat := 0

def MPU_FS_500DPS : Nat := 1

def MPU_FS_1000DPS : Nat := 2

def MPU_FS_2000DPS : Nat := 3

/-- Motion state value INV_MOTION.  Modelled from the spec: declared in
a header not among the provided sources. -/
def INV_MOTION : Nat := 1

/-- Capacity of the interrupt-callback registry
(MAX_INTERRUPT_PROCESSES).  Modelled from the spec: the constant lives
in a header not among the provided sources; the spec only requires a
fixed capacity. -/
def MAX_INTERRUPT_PROCESSES : Nat := 8

/-- C cast of a rational to a signed integer: truncation toward zero,
as in (long)(expr) applied to a float expression. -/
def ctrunc (q : ℚ) : Int := q.num.tdiv q.den

/-- Twos-complement wrap of an integer into signed 32-bit range,
modelling storage into a 32-bit long / int. -/
def wrap32 (x : Int) : Int := (x + 2 ^ 31) % 2 ^ 32 - 2 ^ 31

/-- Low 32 bits of an integer, as an unsigned value. -/
def u32 (x : Int) : Nat := (x % 2 ^ 32).toNat

/-- Big-endian 4-byte rendering of a 32-bit value
(inv_int32_to_big8 in mlMathFunc). -/
def int32ToBig8 (x : Int) : List Nat :=
  [u32 x >>> 24 &&& 0xff, u32 x >>> 16 &&& 0xff, u32 x >>> 8 &&& 0xff,
   u32 x &&& 0xff]

/-- The two scale-factor bytes written for the accelerometer:
(sf shifted right 8) masked to a byte, then sf masked to a byte. -/
def sfBytes2 (sf : Int) : List Nat :=
  [u32 sf >>> 8 &&& 0xff, u32 sf &&& 0xff]

/-- Per-row 3-bit axis code of an orientation row (inv_row_2_scale,
ml.c lines 111-130): bits 0-1 select the first nonzero entry in order,
bit 2 records a negative sign; the all-zero row yields 7, marked
"error" in the source. -/
def inv_row_2_scale (r0 r1 r2 : Int) : Nat :=
  if r0 > 0 then 0
  else if r0 < 0 then 4
  else if r1 > 0 then 1
  else if r1 < 0 then 5
  else if r2 > 0 then 2
  else if r2 < 0 then 6
  else 7

/-- 9-bit orientation scalar of a 3x3 mounting matrix
(inv_orientation_matrix_to_scalar, ml.c lines 131-148): row 0 in bits
0-2, row 1 in bits 3-5, row 2 in bits 6-8. -/
def inv_orientation_matrix_to_scalar (m : Nat → Int) : Nat :=
  inv_row_2_scale (m 0) (m 1) (m 2) |||
    inv_row_2_scale (m 3) (m 4) (m 5) <<< 3 |||
    inv_row_2_scale (m 6) (m 7) (m 8) <<< 6

/-- Axis-dominance encoding of one gyro orientation row (the loop body
of inv_set_gyro_calibration, ml.c lines 291-322): returns the selected
axis index (maxVal) and the sign flag (tmpSign), translated literally
from the three conditionals of the source. -/
def gyroRowEncode (e0 e1 e2 : Int) : Nat × Bool :=
  let sign0 : Bool := if e0 < 0 then true else false
  let maxVal1 : Nat := if |e1| > |e0| then 1 else 0
  let sign1 : Bool := if |e1| > |e0| then (if e1 < 0 then true else sign0)
    else sign0
  let maxVal2 : Nat := if |e2| > |e1| then 2 else maxVal1
  let sign2 : Bool := if |e2| > |e1| then (if e2 < 0 then true else false)
    else sign1
  (maxVal2, sign2)

/-- The axis-dominance rule as worded by the spec (claim C4): select the
entry of largest magnitude with a running maximum, where only a strictly
larger magnitude overrides the previously selected lower index, and the
sign flag records a negative winning entry.  Stated from the wording of the spec for comparison against gyroRowEncode. -/
def gyroRowDominanceClaim (e0 e1 e2 : Int) : Nat × Bool :=
  let p1 : Nat × Int := if |e1| > |e0| then (1, e1) else (0, e0)
  let p2 : Nat × Int := if |e2| > |p1.2| then (2, e2) else p1
  (p2.1, decide (p2.2 < 0))

/-- The selection rule the source actually implements, written in
closed form: axis 2 wins exactly when its magnitude strictly exceeds
entry 1 (entry 0 is never consulted for it); otherwise axis 1 wins when
its magnitude strictly exceeds entry 0; otherwise axis 0.  The sign flag
is the sign of the winner for axis 2, the disjunction of the signs of entries
0 and 1 for axis 1, and the sign of entry 0 for axis 0. -/
def gyroRowDominanceAmended (e0 e1 e2 : Int) : Nat × Bool :=
  if |e2| > |e1| then (2, decide (e2 < 0))
  else if |e1| > |e0| then (1, decide (e0 < 0) || decide (e1 < 0))
  else (0, decide (e0 < 0))

/-- Base opcode for the selected gyro axis (tmpD / tmpE / tmpF in
inv_set_gyro_calibration). -/
def gyroAxisOpcode (m : Nat) : Nat :=
  if m = 0 then DINAC9 else if m = 1 then DINA2C else DINACB

/-- Accelerometer axis opcode table (tmp in inv_set_accel_calibration).
Index 3 is outside the C array: the source reads out of bounds for the
degenerate 3-bit codes 3 and 7; modelled as 0 here.  No claim depends on
that byte. -/
def accelAxisOpcode (m : Nat) : Nat :=
  if m = 0 then DINA4C else if m = 1 then DINACD else if m = 2 then DINA6C
  else 0

/-- Gyro device scale factor (inv_obj.gyro_sf, ml.c lines 334-336):
64-bit product and quotient, stored into a 32-bit long. -/
def gyroSfOf (gyro_sens : Int) : Int :=
  wrap32 ((gyro_sens * 767603923).tdiv 1073741824)

/-- Second gyro scale factor (sf, ml.c lines 345-349): guarded
reciprocal, zero when the sensitivity is zero, stored into a 32-bit
int. -/
def gyroSf2Of (gyro_sens : Int) : Int :=
  if gyro_sens ≠ 0 then wrap32 (Int.tdiv 23832619764371 gyro_sens) else 0

/-- Accelerometer device scale factor (ml.c lines 455-459): guarded
reciprocal of the sensitivity, zero when the sensitivity is zero. -/
def accelSfOf (accel_sens : Int) : Int :=
  if accel_sens ≠ 0 then Int.tdiv 1073741824 accel_sens else 0


/-- Slave descriptor fields used by the embedded operations (the
mldl_cfg accel / compass pointers).  The range field carries the raw
fixed-point full-scale range of the slave. -/
structure SlaveDescr where
  id : Nat
  range : ℚ

/-- The subset of the driver configuration (struct mldl_cfg and its
pdata) read by the embedded operations. -/
structure MldlCfg where
  gyro_sens_trim : ℚ
  full_scale : Nat
  pdata_orientation : Nat → Int
  pdata_accel_orientation : Nat → Int
  pdata_compass_orientation : Nat → Int
  accel : Option SlaveDescr
  compass : Option SlaveDescr
  accel_get_slave_descr : Bool
  compass_get_slave_descr : Bool
  pressure_get_slave_descr : Bool
  requested_sensors : Nat

/-- The subset of the motion-processing context (struct inv_obj_t)
read or written by the embedded operations. -/
structure InvObj where
  gyro_sens : Int
  accel_sens : Int
  compass_sens : Int
  gyro_cal : Nat → Int
  gyro_orient : Nat → Int
  accel_cal : Nat → Int
  compass_cal : Nat → Int
  gyro_sf : Int
  motion_state : Nat
  flags_motion_state_change : Nat
  motion_duration : Int
  no_motion_accel_time : Nat
  mode_change_set : Bool

/-- Oracles for the external black-box services the core calls: results
of device-memory writes, key support, FIFO reads, interrupt triggers,
slave configuration, and the mode-change callback. -/
structure Env where
  setMpuMemory : DmpKey → List Nat → InvError
  dmpkeySupported : DmpKey → Bool
  readAndProcessFifo : Nat → InvError × Nat
  intTrigger : IntSrc → Bool
  fifoStatus : InvError
  getFifoRate : Nat
  configAccelOdr : InvError
  configAccelIrqNone : InvError
  configAccelIrqDataReady : InvError
  dlStart : InvError
  dlStop : InvError
  tickCount : Nat
  modeChange : Nat → Nat → InvError

/-- The interrupt-callback registry (tMLXCallbackInterrupt): a count and
an array of possibly-null function pointers, each pointer modelled by an
identifier. -/
structure CallbackRegistry where
  numInterruptProcesses : Nat
  processInterruptCb : Nat → Option Nat

/-- Gyroscope calibration (inv_set_gyro_calibration, ml.c lines
250-358): state gate, sensitivity-trim rescale, Q30 calibration and
orientation matrices, per-row axis-dominance opcode blobs for FCFG_1 /
FCFG_3, and the two scale-factor words for D_0_104 / D_0_24.  Returns
the result code, the updated context, and the trace of device writes,
aborting at the first failed write. -/
def inv_set_gyro_calibration (st : InvState) (cfg : MldlCfg) (env : Env)
    (obj : InvObj) (range : ℚ) (orientation : Nat → Int) :
    InvError × InvObj × List Effect :=
  if st ≠ InvState.dmpOpened then (InvError.improperState, obj, []) else
  let range1 : ℚ :=
    if cfg.gyro_sens_trim ≠ 0 then
      range * ((32768 / 250) / cfg.gyro_sens_trim)
    else range
  let scale : ℚ := range1 / 32768
  let gyro_sens : Int := ctrunc (range1 * 32768)
  let obj1 : InvObj :=
    { obj with
      gyro_sens := gyro_sens
      gyro_cal := fun k => ctrunc (scale * (orientation k : ℚ) * 2 ^ 30)
      gyro_orient := fun k => orientation k * 2 ^ 30 }
  let enc := fun (i : Nat) =>
    gyroRowEncode (obj1.gyro_orient (3 * i)) (obj1.gyro_orient (3 * i + 1))
      (obj1.gyro_orient (3 * i + 2))
  let signBit := fun (i : Nat) => if (enc i).2 then 1 else 0
  let fcfg1Bytes :=
    [gyroAxisOpcode (enc 0).1, gyroAxisOpcode (enc 1).1,
     gyroAxisOpcode (enc 2).1]
  let fcfg3Bytes :=
    [DINA36 ||| signBit 0, DINA56 ||| signBit 1, DINA76 ||| signBit 2]
  let r1 := env.setMpuMemory DmpKey.fcfg1 fcfg1Bytes
  let tr1 := [Effect.memWrite DmpKey.fcfg1 fcfg1Bytes]
  if r1 ≠ InvError.success then (r1, obj1, tr1) else
  let r2 := env.setMpuMemory DmpKey.fcfg3 fcfg3Bytes
  let tr2 := tr1 ++ [Effect.memWrite DmpKey.fcfg3 fcfg3Bytes]
  if r2 ≠ InvError.success then (r2, obj1, tr2) else
  let obj2 : InvObj := { obj1 with gyro_sf := gyroSfOf gyro_sens }
  let r3 := env.setMpuMemory DmpKey.d_0_104 (int32ToBig8 obj2.gyro_sf)
  let tr3 := tr2 ++ [Effect.memWrite DmpKey.d_0_104 (int32ToBig8 obj2.gyro_sf)]
  if r3 ≠ InvError.success then (r3, obj2, tr3) else
  let sf := gyroSf2Of gyro_sens
  let r4 := env.setMpuMemory DmpKey.d_0_24 (int32ToBig8 sf)
  let tr4 := tr3 ++ [Effect.memWrite DmpKey.d_0_24 (int32ToBig8 sf)]
  if r4 ≠ InvError.success then (r4, obj2, tr4) else
  (InvError.success, obj2, tr4)

/-- Accelerometer calibration (inv_set_accel_calibration, ml.c lines
391-469): state gate, defensive zeroing of D_1_152 when supported,
zeroing of accel_sens exactly when the derived scale is zero, the
orientation-scalar driven opcode blobs for FCFG_2 / FCFG_7 when an
accelerometer slave id is present, and the 2-byte scale factor for
D_0_108 derived from the stored sensitivity. -/
def inv_set_accel_calibration (st : InvState) (cfg : MldlCfg) (env : Env)
    (obj : InvObj) (range : ℚ) (orientation : Nat → Int) :
    InvError × InvObj × List Effect :=
  let scale : ℚ := range / 32768
  if st ≠ InvState.dmpOpened then (InvError.improperState, obj, []) else
  let sup := env.dmpkeySupported DmpKey.d_1_152
  let r0 := if sup then env.setMpuMemory DmpKey.d_1_152 [0, 0, 0, 0]
    else InvError.success
  let tr0 : List Effect :=
    if sup then [Effect.memWrite DmpKey.d_1_152 [0, 0, 0, 0]] else []
  if r0 ≠ InvError.success then (r0, obj, tr0) else
  let obj1 : InvObj := if scale = 0 then { obj with accel_sens := 0 } else obj
  let accelId := match cfg.accel with
    | some a => a.id
    | none => 0
  let step : InvError × InvObj × List Effect :=
    if accelId ≠ 0 then
      let obj2 : InvObj :=
        { obj1 with
          accel_cal := fun k => ctrunc (scale * (orientation k : ℚ) * 2 ^ 30) }
      let orient := inv_orientation_matrix_to_scalar orientation
      let fcfg2Bytes :=
        [accelAxisOpcode (orient &&& 3), accelAxisOpcode (orient >>> 3 &&& 3),
         accelAxisOpcode (orient >>> 6 &&& 3)]
      let rA := env.setMpuMemory DmpKey.fcfg2 fcfg2Bytes
      if rA ≠ InvError.success then
        (rA, obj2, [Effect.memWrite DmpKey.fcfg2 fcfg2Bytes])
      else
        let fcfg7Bytes :=
          [DINA26 ||| (if orient &&& 4 ≠ 0 then 1 else 0),
           DINA46 ||| (if orient &&& 0x20 ≠ 0 then 1 else 0),
           DINA66 ||| (if orient &&& 0x100 ≠ 0 then 1 else 0)]
        let rB := env.setMpuMemory DmpKey.fcfg7 fcfg7Bytes
        (rB, obj2,
         [Effect.memWrite DmpKey.fcfg2 fcfg2Bytes,
          Effect.memWrite DmpKey.fcfg7 fcfg7Bytes])
    else (InvError.success, obj1, [])
  if step.1 ≠ InvError.success then (step.1, step.2.1, tr0 ++ step.2.2) else
  let sfb := sfBytes2 (accelSfOf step.2.1.accel_sens)
  let r3 := env.setMpuMemory DmpKey.d_0_108 sfb
  (r3, step.2.1, tr0 ++ step.2.2 ++ [Effect.memWrite DmpKey.d_0_108 sfb])

/-- Per-cell 4-byte pattern written for the compass matrix: positive
pattern for +1, negated-sign pattern for -1, zero pattern otherwise
(ml.c lines 517-536). -/
def compassCellPattern (entry : Int) : List Nat :=
  if entry = 1 then [64, 0, 0, 0]
  else if entry = -1 then [64 + 128, 0, 0, 0]
  else [0, 0, 0, 0]

/-- Compass calibration (inv_set_compass_calibration, ml.c lines
502-541).  The source performs no lifecycle-state check: it always
computes the Q30 calibration matrix and sensitivity, writes the nine
per-cell patterns when the compass matrix keys are supported (ignoring
the write results), and returns success.  The state argument records
the global state at the call and is not consulted, exactly as in the
source. -/
def inv_set_compass_calibration (st : InvState) (env : Env) (obj : InvObj)
    (range : ℚ) (orientation : Nat → Int) :
    InvError × InvObj × List Effect :=
  let scale : ℚ := range / 32768
  let obj1 : InvObj :=
    { obj with
      compass_cal := fun k => ctrunc (scale * (orientation k : ℚ) * 2 ^ 30)
      compass_sens := ctrunc (scale * 1073741824) }
  let tr : List Effect :=
    if env.dmpkeySupported (DmpKey.cpassMtx 0) then
      (List.range 9).map fun k =>
        Effect.memWrite (DmpKey.cpassMtx ⟨k % 9, Nat.mod_lt k (by norm_num)⟩)
          (compassCellPattern (orientation k))
    else []
  (InvError.success, obj1, tr)

/-- RANGE_FIXEDPOINT_TO_FLOAT.  Modelled from the spec: the macro that
maps the raw fixed-point range field of a slave to its decimal range value
lives in a header not among the provided sources; the field is a 16.16
fixed-point number, so the conversion divides by 65536. -/
def rangeFixedToFloat (r : ℚ) : ℚ := r / 65536

/-- Mapping of the gyro full-scale enum to the decimal range, as in the
switch of inv_apply_calibration (ml.c lines 572-590); none for an
unrecognized enum value. -/
def gyroScaleOfFullScale (fs : Nat) : Option ℚ :=
  if fs = MPU_FS_250DPS then some 250
  else if fs = MPU_FS_500DPS then some 500
  else if fs = MPU_FS_1000DPS then some 1000
  else if fs = MPU_FS_2000DPS then some 2000
  else none

/-- Host-side sensitivity updates of inv_apply_calibration (ml.c lines
592-601): accel_sens from the range of the accel slave halved, compass_sens
from the range of the compass slave; untouched when a slave is absent. -/
def applySens (cfg : MldlCfg) (obj : InvObj) : InvObj :=
  let obj1 := match cfg.accel with
    | some a =>
        { obj with
          accel_sens := (ctrunc (rangeFixedToFloat a.range * 65536)).tdiv 2 }
    | none => obj
  match cfg.compass with
  | some c =>
      { obj1 with compass_sens := ctrunc (rangeFixedToFloat c.range * 32768) }
  | none => obj1

/-- Apply-all calibration (inv_apply_calibration, ml.c lines 548-625):
collects the configured orientation matrices, maps the full-scale enum
(failing with invalidParameter on an unrecognized value), updates the
host-side sensitivities, and only when the current state is DMP_OPENED
invokes the three calibration operations in order, stopping at the
first failure; in every other state it performs no device write and
returns success. -/
def inv_apply_calibration (st : InvState) (cfg : MldlCfg) (env : Env)
    (obj : InvObj) : InvError × InvObj × List Effect :=
  match gyroScaleOfFullScale cfg.full_scale with
  | none => (InvError.invalidParameter, obj, [])
  | some gyroScale =>
    let obj2 := applySens cfg obj
    if st = InvState.dmpOpened then
      let accelCal : Nat → Int := fun k => match cfg.accel with
        | some _ => cfg.pdata_accel_orientation k
        | none => 0
      let magCal : Nat → Int := fun k => match cfg.compass with
        | some _ => cfg.pdata_compass_orientation k
        | none => 0
      let compassStep := fun (objX : InvObj) (tX : List Effect) =>
        match cfg.compass with
        | some c =>
            let s := inv_set_compass_calibration st env objX
              (rangeFixedToFloat c.range) magCal
            if s.1 ≠ InvError.success then (s.1, s.2.1, tX ++ s.2.2)
            else (InvError.success, s.2.1, tX ++ s.2.2)
        | none => (InvError.success, objX, tX)
      let g := inv_set_gyro_calibration st cfg env obj2 gyroScale
        cfg.pdata_orientation
      if g.1 ≠ InvError.success then g else
      match cfg.accel with
      | some a =>
          let s := inv_set_accel_calibration st cfg env g.2.1
            (rangeFixedToFloat a.range) accelCal
          if s.1 ≠ InvError.success then (s.1, s.2.1, g.2.2 ++ s.2.2)
          else compassStep s.2.1 (g.2.2 ++ s.2.2)
      | none => compassStep g.2.1 g.2.2
    else (InvError.success, obj2, [])

/-- Callback dispatch on a DMP interrupt (inv_run_dmp_interupt_cb, ml.c
lines 739-746): walks the registry slots from 0 to the registered count
and invokes every non-null entry, passing the context; the returned
trace lists the invocations in that order. -/
def inv_run_dmp_interupt_cb (reg : CallbackRegistry) : List Effect :=
  (List.range reg.numInterruptProcesses).filterMap fun k =>
    Option.map Effect.callback (reg.processInterruptCb k)

/-- Motion-state reset (inv_reset_motion, ml.c lines 751-792): forces
the motion state and the change flag to MOVING, records the tick count,
writes the opcode triple, the motion-duration threshold, the 8-byte
zero block and the Q30 sentinel, aborting at the first failed write,
and finally propagates the MOVING state. -/
def inv_reset_motion (env : Env) (obj : InvObj) :
    InvError × InvObj × List Effect :=
  let obj1 : InvObj :=
    { obj with
      motion_state := INV_MOTION
      flags_motion_state_change := INV_MOTION
      no_motion_accel_time := env.tickCount }
  let b1 := [DINAD8 + 2, DINA0C, DINAD8 + 1]
  let r1 := env.setMpuMemory DmpKey.cfg18 b1
  let t1 := [Effect.memWrite DmpKey.cfg18 b1]
  if r1 ≠ InvError.success then (r1, obj1, t1) else
  let b2 := [u32 obj1.motion_duration >>> 8 &&& 0xff,
             u32 obj1.motion_duration &&& 0xff]
  let r2 := env.setMpuMemory DmpKey.d_1_106 b2
  let t2 := t1 ++ [Effect.memWrite DmpKey.d_1_106 b2]
  if r2 ≠ InvError.success then (r2, obj1, t2) else
  let b3 := List.replicate 8 0
  let r3 := env.setMpuMemory DmpKey.d_1_96 b3
  let t3 := t2 ++ [Effect.memWrite DmpKey.d_1_96 b3]
  if r3 ≠ InvError.success then (r3, obj1, t3) else
  let b4 := int32ToBig8 0x40000000
  let r4 := env.setMpuMemory DmpKey.d_0_96 b4
  let t4 := t3 ++ [Effect.memWrite DmpKey.d_0_96 b4]
  if r4 ≠ InvError.success then (r4, obj1, t4) else
  (r4, obj1, t4 ++ [Effect.setMotionStateCall INV_MOTION])

/-- Data pump (inv_update_data, ml.c lines 811-853): gated on state
DMP_STARTED, chooses a FIFO processing budget of 100 packets when the
DMP processor is requested and 1 otherwise, reads and processes the
FIFO (aborting on failure), clears the auxiliary and primary interrupt
triggers that fired, dispatches the registered callbacks when the
primary (MPU) trigger fired, and returns the FIFO status. -/
def inv_update_data (st : InvState) (cfg : MldlCfg) (env : Env)
    (reg : CallbackRegistry) : InvError × List Effect :=
  if st ≠ InvState.dmpStarted then (InvError.improperState, []) else
  let ftry : Nat :=
    if cfg.requested_sensors &&& INV_DMP_PROCESSOR ≠ 0 then 100 else 1
  let rp := env.readAndProcessFifo ftry
  if rp.1 ≠ InvError.success then (rp.1, [Effect.fifoRead ftry]) else
  let trAux : List Effect :=
    if env.intTrigger IntSrc.aux1 then [Effect.clearInt IntSrc.aux1] else []
  let mpuInt := env.intTrigger IntSrc.mpu
  let trMpu : List Effect :=
    if mpuInt then [Effect.clearInt IntSrc.mpu] else []
  let trCb : List Effect := if mpuInt then inv_run_dmp_interupt_cb reg else []
  (env.fifoStatus, Effect.fifoRead ftry :: (trAux ++ trMpu ++ trCb))

/-- Sensor enable / mode controller (inv_set_mpu_sensors, ml.c lines
1148-1269): gated on state at least DMP_OPENED; rejects a partial
cover of any 3-axis group with featureNotImplemented and a group
request without its slave descriptor with serialDeviceNotRecognized,
in source order; on a DMP 0-to-1 transition reconfigures the
accelerometer rate and interrupt and reinitializes the FIFO hardware;
invokes the mode-change callback when registered; commits the new
requested_sensors mask; when already started, restarts with the new
mask, resets the motion state and stops the dropped sensors; restores
the FIFO rate; re-enables the accelerometer data-ready interrupt when
the DMP is not requested but the accelerometer is. -/
def inv_set_mpu_sensors (st : InvState) (cfg : MldlCfg) (env : Env)
    (obj : InvObj) (sensors : Nat) :
    InvError × MldlCfg × InvObj × List Effect :=
  if st.toNat < InvState.dmpOpened.toNat then
    (InvError.improperState, cfg, obj, []) else
  if sensors &&& INV_THREE_AXIS_ACCEL ≠ INV_THREE_AXIS_ACCEL ∧
      sensors &&& INV_THREE_AXIS_ACCEL ≠ 0 then
    (InvError.featureNotImplemented, cfg, obj, []) else
  if sensors &&& INV_THREE_AXIS_ACCEL ≠ 0 ∧ ¬ cfg.accel_get_slave_descr then
    (InvError.serialDeviceNotRecognized, cfg, obj, []) else
  if sensors &&& INV_THREE_AXIS_COMPASS ≠ INV_THREE_AXIS_COMPASS ∧
      sensors &&& INV_THREE_AXIS_COMPASS ≠ 0 then
    (InvError.featureNotImplemented, cfg, obj, []) else
  if sensors &&& INV_THREE_AXIS_COMPASS ≠ 0 ∧
      ¬ cfg.compass_get_slave_descr then
    (InvError.serialDeviceNotRecognized, cfg, obj, []) else
  if sensors &&& INV_THREE_AXIS_PRESSURE ≠ INV_THREE_AXIS_PRESSURE ∧
      sensors &&& INV_THREE_AXIS_PRESSURE ≠ 0 then
    (InvError.featureNotImplemented, cfg, obj, []) else
  if sensors &&& INV_THREE_AXIS_PRESSURE ≠ 0 ∧
      ¬ cfg.pressure_get_slave_descr then
    (InvError.serialDeviceNotRecognized, cfg, obj, []) else
  let dmpTurnOn := sensors &&& INV_DMP_PROCESSOR ≠ 0 ∧
    cfg.requested_sensors &&& INV_DMP_PROCESSOR = 0
  let stepA : InvError × List Effect :=
    if dmpTurnOn then
      if env.configAccelOdr ≠ InvError.success then
        (env.configAccelOdr, [Effect.configAccelCall 0])
      else if env.configAccelIrqNone ≠ InvError.success then
        (env.configAccelIrqNone,
         [Effect.configAccelCall 0, Effect.configAccelCall 1])
      else (InvError.success,
        [Effect.configAccelCall 0, Effect.configAccelCall 1,
         Effect.initFifoHw])
    else (InvError.success, [])
  if stepA.1 ≠ InvError.success then (stepA.1, cfg, obj, stepA.2) else
  let stepB : InvError × List Effect :=
    if obj.mode_change_set then
      (env.modeChange cfg.requested_sensors sensors,
       [Effect.modeChangeCall cfg.requested_sensors sensors])
    else (InvError.success, [])
  if stepB.1 ≠ InvError.success then
    (stepB.1, cfg, obj, stepA.2 ++ stepB.2) else
  let fifoRate := env.getFifoRate
  let cfg1 := { cfg with requested_sensors := sensors }
  let tail := fun (objT : InvObj) (trPre : List Effect) =>
    let tr1 := trPre ++ [Effect.setFifoRateCall fifoRate]
    if ¬ sensors &&& INV_DMP_PROCESSOR ≠ 0 ∧
        sensors &&& INV_THREE_AXIS_ACCEL ≠ 0 then
      (env.configAccelIrqDataReady, cfg1, objT,
       tr1 ++ [Effect.configAccelCall 2])
    else (InvError.success, cfg1, objT, tr1)
  if st = InvState.dmpStarted then
    let trS := stepA.2 ++ stepB.2 ++ [Effect.dlStartCall sensors]
    if env.dlStart ≠ InvError.success then
      (env.dlStart, cfg1, obj, trS) else
    let m := inv_reset_motion env obj
    if m.1 ≠ InvError.success then (m.1, cfg1, m.2.1, trS ++ m.2.2) else
    let stopMask := sensors ^^^ 0xffffffff
    let trS2 := trS ++ m.2.2 ++ [Effect.dlStopCall stopMask]
    if env.dlStop ≠ InvError.success then
      (env.dlStop, cfg1, m.2.1, trS2) else
    tail m.2.1 trS2
  else tail obj (stepA.2 ++ stepB.2)

/-- The identity mounting matrix, row-major. -/
def idMtx : Nat → Int := fun k => if k = 0 ∨ k = 4 ∨ k = 8 then 1 else 0

/-- An environment in which every external call succeeds, every key is
supported, and both interrupt triggers have fired. -/
def defaultEnv : Env where
  setMpuMemory := fun _ _ => InvError.success
  dmpkeySupported := fun _ => true
  readAndProcessFifo := fun _ => (InvError.success, 1)
  intTrigger := fun _ => true
  fifoStatus := InvError.success
  getFifoRate := 20
  configAccelOdr := InvError.success
  configAccelIrqNone := InvError.success
  configAccelIrqDataReady := InvError.success
  dlStart := InvError.success
  dlStop := InvError.success
  tickCount := 42
  modeChange := fun _ _ => InvError.success

/-- A representative driver configuration: 2000 dps gyro full scale,
accelerometer and compass slaves present with 2 g and 10 unit ranges,
identity mounting everywhere. -/
def cfg0 : MldlCfg where
  gyro_sens_trim := 0
  full_scale := MPU_FS_2000DPS
  pdata_orientation := idMtx
  pdata_accel_orientation := idMtx
  pdata_compass_orientation := idMtx
  accel := some { id := 1, range := 2 * 65536 }
  compass := some { id := 2, range := 10 * 65536 }
  accel_get_slave_descr := true
  compass_get_slave_descr := true
  pressure_get_slave_descr := true
  requested_sensors := 0

/-- A representative context: sensitivities as set by a prior apply-all
with cfg0, moving state, no registered mode-change callback. -/
def obj0 : InvObj where
  gyro_sens := 65536000
  accel_sens := 65536
  compass_sens := 327680
  gyro_cal := fun _ => 0
  gyro_orient := fun _ => 0
  accel_cal := fun _ => 0
  compass_cal := fun _ => 0
  gyro_sf := 0
  motion_state := INV_MOTION
  flags_motion_state_change := INV_MOTION
  motion_duration := 1536
  no_motion_accel_time := 0
  mode_change_set := false

/-- A registry holding two registered callbacks in slots 0 and 1. -/
def reg2 : CallbackRegistry where
  numInterruptProcesses := 2
  processInterruptCb := fun k => if k < 2 then some k else none

/-- Selects the callback-invocation events of a trace. -/
def isCallbackEvent : Effect → Bool
  | .callback _ => true
  | _ => false

/-- The callback-invocation events of a trace, in order. -/
def callbackEvents (tr : List Effect) : List Effect :=
  tr.filter isCallbackEvent

theorem tdiv_natCast (a b : Nat) :
    Int.tdiv (a : Int) (b : Int) = ((a / b : Nat) : Int) := rfl

theorem wrap32_of_lt (k : Nat) (h : k < 2 ^ 31) : wrap32 (k : Int) = k := by
  unfold wrap32
  omega

theorem callbackEvents_append (a b : List Effect) :
    callbackEvents (a ++ b) = callbackEvents a ++ callbackEvents b := by
  simp [callbackEvents]

theorem filterMap_range_callback (N : Nat) (g : Nat → Option Nat)
    (f : Nat → Nat) (h : ∀ k, k < N → g k = some (f k)) :
    (List.range N).filterMap (fun k => Option.map Effect.callback (g k))
      = (List.range N).map fun k => Effect.callback (f k) := by
  induction N with
  | zero => simp
  | succ n ih =>
      rw [List.range_succ, List.filterMap_append, List.map_append,
        ih fun k hk => h k (Nat.lt_succ_of_lt hk)]
      simp [h n (Nat.lt_succ_self n)]

theorem run_cb_eq_map (reg : CallbackRegistry) (N : Nat) (f : Nat → Nat)
    (hnum : reg.numInterruptProcesses = N)
    (hreg : ∀ k, k < N → reg.processInterruptCb k = some (f k)) :
    inv_run_dmp_interupt_cb reg
      = (List.range N).map fun k => Effect.callback (f k) := by
  unfold inv_run_dmp_interupt_cb
  rw [hnum]
  exact filterMap_range_callback N _ f hreg

/-- C2, counterexample: the identity mounting matrix does not encode to
orientation scalar 0. -/
theorem identity_orientation_scalar_ne_zero :
    inv_orientation_matrix_to_scalar idMtx ≠ 0 := by decide

/-- C2, amended: the identity matrix {1,0,0,0,1,0,0,0,1} encodes to the
orientation scalar 136, binary 010_001_000 (row 0 yields code 0, row 1
code 1 in bits 3-5, row 2 code 2 in bits 6-8), exactly the value the
comment in the source documents for the identity matrix. -/
theorem identity_orientation_scalar_eq_136 :
    inv_orientation_matrix_to_scalar idMtx = 136 := by decide

/-- C3, counterexample: for the all-zero row, the gyro axis-dominance
encoding does not select axis-index 2, and the accelerometer per-row
3-bit code is not the axis-2-no-sign code 2. -/
theorem zero_row_not_axis_two :
    (gyroRowEncode 0 0 0).1 ≠ 2 ∧ inv_row_2_scale 0 0 0 ≠ 2 := by decide

/-- C3, amended: for an all-zero orientation row, the gyro
axis-dominance encoding degenerates to axis-index 0 with no sign flag,
and the accelerometer per-row 3-bit code is 7 (binary 111: axis bits 3
with the sign bit set), the value the source marks "error". -/
theorem zero_row_encodings :
    gyroRowEncode 0 0 0 = (0, false) ∧ inv_row_2_scale 0 0 0 = 7 := by
  decide

/-- C4, counterexample: on the row (2^30, 0, 2^30), two entries tie for
the largest magnitude, so the rule claimed by the spec keeps the lower
index 0, yet the source selects axis 2: the comparison for axis 2 is
made against entry 1 alone, not against the running maximum. -/
theorem gyro_dominance_claim_mismatch :
    gyroRowEncode (2 ^ 30) 0 (2 ^ 30)
      ≠ gyroRowDominanceClaim (2 ^ 30) 0 (2 ^ 30) := by decide

/-- C4, amended: for every 3-entry row, the gyro axis-dominance
encoding selects axis 2 exactly when the magnitude of entry 2 strictly
exceeds that of entry 1 (entry 0 is never compared against entry 2),
otherwise axis 1 exactly when the magnitude of entry 1 strictly exceeds
that of entry 0, otherwise axis 0; the sign flag is the sign of the
winner when axis 2 wins, the disjunction of the signs of entries 0 and
1 when axis 1 wins, and the sign of entry 0 when axis 0 wins. -/
theorem gyro_row_encode_characterization (e0 e1 e2 : Int) :
    gyroRowEncode e0 e1 e2 = gyroRowDominanceAmended e0 e1 e2 := by
  unfold gyroRowEncode gyroRowDominanceAmended
  split_ifs <;> simp_all

/-- C5: the gyro calibration stores
gyro_sf = floor(gyro_sens * 767603923 / 2^30) computed on a 64-bit
intermediate, a second factor sf = floor(23832619764371 / gyro_sens)
for nonzero sensitivity and sf = 0 for zero sensitivity, and the
accelerometer calibration stores sf = floor(2^30 / accel_sens) for
nonzero sensitivity and 0 otherwise, so a zero sensitivity never causes
a division by zero.  The bounds on the sensitivities keep the stored
32-bit values inside signed range; every sensitivity reachable through
apply-all satisfies them (the gyro sensitivity is at least
16384 = round(250 * 32768 * 250 / 32768 / 65535 * 32768) even at the
largest trim). -/
theorem gyro_accel_scale_factor_formulas (n m : Nat)
    (h1 : 11098 ≤ n) (h2 : n < 2 ^ 31) (h3 : 0 < m) :
    gyroSfOf (n : Int) = ((n * 767603923 / 2 ^ 30 : Nat) : Int) ∧
    gyroSf2Of (n : Int) = ((23832619764371 / n : Nat) : Int) ∧
    gyroSf2Of 0 = 0 ∧
    accelSfOf (m : Int) = ((2 ^ 30 / m : Nat) : Int) ∧
    accelSfOf 0 = 0 := by
  have hn0 : (n : Int) ≠ 0 := by
    have : 0 < n := lt_of_lt_of_le (by norm_num) h1
    exact_mod_cast this.ne'
  have hm0 : (m : Int) ≠ 0 := by exact_mod_cast h3.ne'
  refine ⟨?_, ?_, by simp [gyroSf2Of], ?_, by simp [accelSfOf]⟩
  · unfold gyroSfOf
    have hcast : ((n : Int) * 767603923) = ((n * 767603923 : Nat) : Int) := by
      push_cast
      ring
    rw [hcast, show (1073741824 : Int) = ((1073741824 : Nat) : Int) from rfl,
      tdiv_natCast]
    exact wrap32_of_lt _ (by omega)
  · unfold gyroSf2Of
    rw [if_pos hn0,
      show (23832619764371 : Int) = ((23832619764371 : Nat) : Int) from rfl,
      tdiv_natCast]
    refine wrap32_of_lt _ ?_
    calc 23832619764371 / n ≤ 23832619764371 / 11098 :=
          Nat.div_le_div_left h1 (by norm_num)
      _ < 2 ^ 31 := by norm_num
  · unfold accelSfOf
    rw [if_pos hm0,
      show (1073741824 : Int) = ((1073741824 : Nat) : Int) from rfl,
      tdiv_natCast]
    norm_num

/-- C5, witness: the formulas at the regression sensitivity
gyro_sens = 65536000 of the spec and a 2 g accelerometer sensitivity,
with the explicit quotient values. -/
theorem gyro_accel_scale_factor_formulas_inst :
    11098 ≤ 65536000 ∧ (0 : Nat) < 65536 ∧
    gyroSfOf 65536000 = 46850825 ∧ gyroSf2Of 65536000 = 363656 ∧
    accelSfOf 65536 = 16384 := by
  have h := gyro_accel_scale_factor_formulas 65536000 65536 (by norm_num)
    (by norm_num) (by norm_num)
  refine ⟨by norm_num, by norm_num, ?_, ?_, ?_⟩
  · rw [show ((65536000 : Nat) : Int) = (65536000 : Int) from rfl] at h
    rw [h.1]
    decide
  · rw [show ((65536000 : Nat) : Int) = (65536000 : Int) from rfl] at h
    rw [h.2.1]
    decide
  · rw [show ((65536 : Nat) : Int) = (65536 : Int) from rfl] at h
    rw [h.2.2.2.1]
    decide

/-- C6, counterexample: compass calibration invoked with the lifecycle
state at SERIAL_OPENED does not return improperState; the source
performs no state check in inv_set_compass_calibration. -/
theorem compass_calibration_no_state_check :
    (inv_set_compass_calibration InvState.serialOpened defaultEnv obj0 10
      idMtx).1 ≠ InvError.improperState := by decide

/-- C6, amended: gyroscope and accelerometer calibration return
improperState when invoked in any state other than DMP_OPENED; compass
calibration performs no state check and returns success in every
state. -/
theorem calibration_state_gating (st : InvState) (cfg : MldlCfg) (env : Env)
    (obj : InvObj) (range : ℚ) (om : Nat → Int)
    (h : st ≠ InvState.dmpOpened) :
    (inv_set_gyro_calibration st cfg env obj range om).1
        = InvError.improperState ∧
    (inv_set_accel_calibration st cfg env obj range om).1
        = InvError.improperState ∧
    (inv_set_compass_calibration st env obj range om).1
        = InvError.success := by
  refine ⟨?_, ?_, rfl⟩
  · simp [inv_set_gyro_calibration, h]
  · simp [inv_set_accel_calibration, h]

/-- C6, witness: the amended statement at state SERIAL_CLOSED with the
representative configuration. -/
theorem calibration_state_gating_inst :
    InvState.serialClosed ≠ InvState.dmpOpened ∧
    ((inv_set_gyro_calibration InvState.serialClosed cfg0 defaultEnv obj0
        2000 idMtx).1 = InvError.improperState ∧
     (inv_set_accel_calibration InvState.serialClosed cfg0 defaultEnv obj0
        2000 idMtx).1 = InvError.improperState ∧
     (inv_set_compass_calibration InvState.serialClosed defaultEnv obj0
        2000 idMtx).1 = InvError.success) :=
  ⟨by decide,
   calibration_state_gating InvState.serialClosed cfg0 defaultEnv obj0 2000
     idMtx (by decide)⟩

/-- C1, counterexample: apply-all calibration called at SERIAL_OPENED,
below DMP_OPENED, with the valid full-scale enum MPU_FS_2000DPS does
not return improperState (it returns success, silently skipping the
calibration work). -/
theorem inv_apply_calibration_below_open_not_improper :
    (inv_apply_calibration InvState.serialOpened cfg0 defaultEnv obj0).1
      ≠ InvError.improperState := by decide

/-- C1, amended: for every valid full-scale range enum and every state
below DMP_OPENED, apply-all calibration returns success, not
improperState, and writes no device memory (its effect trace is empty;
only host-side sensitivity fields change). -/
theorem inv_apply_calibration_below_open_no_device_writes
    (st : InvState) (cfg : MldlCfg) (env : Env) (obj : InvObj)
    (h1 : st.toNat < InvState.dmpOpened.toNat)
    (h2 : (gyroScaleOfFullScale cfg.full_scale).isSome = true) :
    (inv_apply_calibration st cfg env obj).1 = InvError.success ∧
    (inv_apply_calibration st cfg env obj).2.2 = [] := by
  obtain ⟨g, hg⟩ := Option.isSome_iff_exists.mp h2
  have hne : st ≠ InvState.dmpOpened := by
    cases st <;> simp_all [InvState.toNat]
  simp [inv_apply_calibration, hg, hne]

/-- C1, witness: the amended statement at SERIAL_OPENED with the
representative configuration, whose full-scale enum is valid. -/
theorem inv_apply_calibration_below_open_no_device_writes_inst :
    InvState.serialOpened.toNat < InvState.dmpOpened.toNat ∧
    (gyroScaleOfFullScale cfg0.full_scale).isSome = true ∧
    ((inv_apply_calibration InvState.serialOpened cfg0 defaultEnv obj0).1
        = InvError.success ∧
     (inv_apply_calibration InvState.serialOpened cfg0 defaultEnv obj0).2.2
        = []) :=
  ⟨by decide, by decide,
   inv_apply_calibration_below_open_no_device_writes InvState.serialOpened
     cfg0 defaultEnv obj0 (by decide) (by decide)⟩

/-- C7: a sensor mask covering exactly two of the three accelerometer
axes (the three such masked values being 0x30, 0x50, 0x60 over axis
bits 0x10, 0x20, 0x40) makes the sensor controller fail with
featureNotImplemented in every state at or above DMP_OPENED, leaving
the stored requested_sensors mask unchanged and performing no external
action. -/
theorem set_mpu_sensors_partial_accel_rejected (st : InvState)
    (cfg : MldlCfg) (env : Env) (obj : InvObj) (sensors : Nat)
    (h1 : InvState.dmpOpened.toNat ≤ st.toNat)
    (h2 : sensors &&& INV_THREE_AXIS_ACCEL = 0x30 ∨
      sensors &&& INV_THREE_AXIS_ACCEL = 0x50 ∨
      sensors &&& INV_THREE_AXIS_ACCEL = 0x60) :
    (inv_set_mpu_sensors st cfg env obj sensors).1
        = InvError.featureNotImplemented ∧
    (inv_set_mpu_sensors st cfg env obj sensors).2.1.requested_sensors
        = cfg.requested_sensors ∧
    (inv_set_mpu_sensors st cfg env obj sensors).2.2.2 = [] := by
  have hlt : ¬ st.toNat < InvState.dmpOpened.toNat := Nat.not_lt.mpr h1
  have hfull : sensors &&& INV_THREE_AXIS_ACCEL ≠ INV_THREE_AXIS_ACCEL := by
    rcases h2 with h | h | h <;> rw [h] <;>
      norm_num [INV_THREE_AXIS_ACCEL]
  have hzero : sensors &&& INV_THREE_AXIS_ACCEL ≠ 0 := by
    rcases h2 with h | h | h <;> rw [h] <;> norm_num
  simp [inv_set_mpu_sensors, hlt, hfull, hzero]

/-- C7, witness: at DMP_OPENED, requesting only the X and Y
accelerometer axes is rejected with featureNotImplemented and leaves
requested_sensors untouched. -/
theorem set_mpu_sensors_partial_accel_rejected_inst :
    InvState.dmpOpened.toNat ≤ InvState.dmpOpened.toNat ∧
    (0x30 &&& INV_THREE_AXIS_ACCEL = 0x30 ∨
      0x30 &&& INV_THREE_AXIS_ACCEL = 0x50 ∨
      0x30 &&& INV_THREE_AXIS_ACCEL = 0x60) ∧
    ((inv_set_mpu_sensors InvState.dmpOpened cfg0 defaultEnv obj0 0x30).1
        = InvError.featureNotImplemented ∧
     (inv_set_mpu_sensors InvState.dmpOpened cfg0 defaultEnv obj0
        0x30).2.1.requested_sensors = cfg0.requested_sensors ∧
     (inv_set_mpu_sensors InvState.dmpOpened cfg0 defaultEnv obj0
        0x30).2.2.2 = []) :=
  ⟨by decide, by decide,
   set_mpu_sensors_partial_accel_rejected InvState.dmpOpened cfg0 defaultEnv
     obj0 0x30 (by decide) (by decide)⟩

/-- C8: in every state below DMP_STARTED the data pump returns
improperState with an empty effect trace, hence it performs no FIFO
read and dispatches no callback. -/
theorem update_data_below_started_improper (st : InvState) (cfg : MldlCfg)
    (env : Env) (reg : CallbackRegistry)
    (h : st.toNat < InvState.dmpStarted.toNat) :
    inv_update_data st cfg env reg = (InvError.improperState, []) := by
  have hne : st ≠ InvState.dmpStarted := by
    cases st <;> simp_all [InvState.toNat]
  simp [inv_update_data, hne]

/-- C8, witness: the data pump at DMP_OPENED with the representative
configuration and registry. -/
theorem update_data_below_started_improper_inst :
    InvState.dmpOpened.toNat < InvState.dmpStarted.toNat ∧
    inv_update_data InvState.dmpOpened cfg0 defaultEnv reg2
      = (InvError.improperState, []) :=
  ⟨by decide,
   update_data_below_started_improper InvState.dmpOpened cfg0 defaultEnv reg2
     (by decide)⟩

theorem filter_callback_map (N : Nat) (f : Nat → Nat) :
    List.filter isCallbackEvent
        ((List.range N).map fun k => Effect.callback (f k))
      = (List.range N).map fun k => Effect.callback (f k) := by
  rw [List.filter_eq_self]
  intro a ha
  obtain ⟨k, _, rfl⟩ := List.mem_map.mp ha
  rfl

/-- C9: with N callbacks registered in slots 0..N-1 (N at most the
fixed capacity), a successful FIFO pass and a fired primary (MPU)
interrupt trigger, the invocation trace of the data pump contains exactly
the N registered callbacks, each invoked exactly once, in registration
order, each receiving the context. -/
theorem update_data_callback_dispatch_order (N : Nat) (f : Nat → Nat)
    (cfg : MldlCfg) (env : Env) (reg : CallbackRegistry)
    (hcap : N ≤ MAX_INTERRUPT_PROCESSES)
    (hnum : reg.numInterruptProcesses = N)
    (hreg : ∀ k, k < N → reg.processInterruptCb k = some (f k))
    (hfifo : ∀ n, (env.readAndProcessFifo n).1 = InvError.success)
    (hmpu : env.intTrigger IntSrc.mpu = true) :
    callbackEvents (inv_update_data InvState.dmpStarted cfg env reg).2
      = (List.range N).map fun k => Effect.callback (f k) := by
  have hrun := run_cb_eq_map reg N f hnum hreg
  cases haux : env.intTrigger IntSrc.aux1 <;>
    simp [inv_update_data, hfifo, hmpu, haux, hrun, callbackEvents,
      isCallbackEvent, List.filter_append, filter_callback_map]

/-- C9, witness: two registered callbacks dispatched once each, in
order, by an update at DMP_STARTED whose primary trigger fired. -/
theorem update_data_callback_dispatch_order_inst :
    callbackEvents (inv_update_data InvState.dmpStarted cfg0 defaultEnv
      reg2).2 = [Effect.callback 0, Effect.callback 1] := by
  have h := update_data_callback_dispatch_order 2 id cfg0 defaultEnv reg2
    (by norm_num [MAX_INTERRUPT_PROCESSES]) rfl
    (fun k hk => by interval_cases k <;> rfl) (fun _ => rfl) rfl
  simpa using h

/-- C10: accelerometer calibration called directly (state DMP_OPENED,
writes succeeding) zeroes accel_sens exactly when its range argument is
zero and otherwise leaves accel_sens unchanged, and the 2-byte device
scale factor it writes to D_0_108 is derived from the stored
sensitivity - the pre-existing accel_sens when the range argument is
nonzero - never from the range argument of the call. -/
theorem accel_calibration_sens_frame (cfg : MldlCfg) (env : Env)
    (obj : InvObj) (range : ℚ) (om : Nat → Int)
    (hw : ∀ k b, env.setMpuMemory k b = InvError.success) :
    ((range = 0 →
      (inv_set_accel_calibration InvState.dmpOpened cfg env obj range
        om).2.1.accel_sens = 0) ∧
     (range ≠ 0 →
      (inv_set_accel_calibration InvState.dmpOpened cfg env obj range
        om).2.1.accel_sens = obj.accel_sens) ∧
     Effect.memWrite DmpKey.d_0_108
        (sfBytes2 (accelSfOf (if range = 0 then 0 else obj.accel_sens)))
       ∈ (inv_set_accel_calibration InvState.dmpOpened cfg env obj range
           om).2.2) := by
  by_cases hr : range = 0 <;>
    by_cases hid : (match cfg.accel with | some a => a.id | none => 0) = 0 <;>
      simp [inv_set_accel_calibration, hw, hr, hid, div_eq_zero_iff]

/-- C10, witness: a direct call with nonzero range 1 and the
representative context leaves accel_sens at its prior value and writes
the scale factor derived from that prior value. -/
theorem accel_calibration_sens_frame_inst :
    (inv_set_accel_calibration InvState.dmpOpened cfg0 defaultEnv obj0 1
      idMtx).2.1.accel_sens = obj0.accel_sens ∧
    Effect.memWrite DmpKey.d_0_108 (sfBytes2 (accelSfOf obj0.accel_sens))
      ∈ (inv_set_accel_calibration InvState.dmpOpened cfg0 defaultEnv obj0 1
          idMtx).2.2 := by
  have h := accel_calibration_sens_frame cfg0 defaultEnv obj0 1 idMtx
    (fun _ _ => rfl)
  refine ⟨h.2.1 one_ne_zero, ?_⟩
  have hm := h.2.2
  rwa [if_neg one_ne_zero] at hm
